import Mathlib

/-!
Shallow embedding of the OTP payment session core of `src/backend/main.py`
(a FastAPI service backed by a MongoDB collection `otp_sessions`).

Modelling conventions:
* The MongoDB collection is a `List OtpDoc` in insertion order.
  `find_one` is `List.find?` (first match); `update_one` rewrites the first
  document matching its filter; `insert_one` appends.
* Timestamps are natural numbers (seconds).  Each `datetime.utcnow()` call
  site in the source is a separate parameter of the embedded function, since
  distinct calls may read distinct instants: `initiate_payment` reads the
  clock twice (line 148 for `expiry_time`, line 156 for `created_at`) and
  `verify_otp` reads it at the expiry check (line 198) and again when
  stamping `verified_at` (line 215).
* `random.choices(population, k)` is modelled by a draw stream
  `Nat → Nat`, each draw taken modulo the population size.
* Mongo documents are schemaless; the fields `$set` can add later
  (`expired`, `verified_at`, `failed`) are modelled as always-present with
  the neutral values `false` / `none` standing for field absence.
-/

namespace Payment

/-- `OTP_EXPIRY_MINUTES = 2` (main.py line 44). -/
def OTP_EXPIRY_MINUTES : Nat := 2

/-- Request model for payment initiation (`CardDetails`), with
`card_number` already cleaned by the validator (spaces/dashes stripped). -/
structure CardDetails where
  card_number : String
  expiry : String
  cvv : String
  holder_name : String
deriving Repr, DecidableEq

/-- One document of the `otp_sessions` collection.  The first seven fields
are written by `initiate_payment`; `expired`, `verified_at` and `failed`
are added by the three `$set` updates in `verify_otp` (absence is
modelled as `false` / `none`). -/
structure OtpDoc where
  session_id : String
  otp : String
  card_last_four : String
  holder_name : String
  created_at : Nat
  expires_at : Nat
  verified : Bool
  expired : Bool
  verified_at : Option Nat
  failed : Bool
deriving Repr, DecidableEq

/-- Response model for payment initiation (`InitiateResponse`). -/
structure InitiateResponse where
  success : Bool
  message : String
  session_id : String
  otp : String
deriving Repr, DecidableEq

/-- Response model for OTP verification (`VerifyResponse`). -/
structure VerifyResponse where
  success : Bool
  status : String
  message : String
deriving Repr, DecidableEq

/-- The population of `random.choices` in `generate_session_id`:
`string.ascii_uppercase + string.digits`. -/
def sessionAlphabet : List Char := "ABCDEFGHIJKLMNOPQRSTUVWXYZ0123456789".toList

/-- `generate_session_id` (main.py lines 114-116): 16 draws from the
uppercase+digits alphabet.  `r` is the draw stream. -/
def generate_session_id (r : Nat → Nat) : String :=
  String.mk ((List.range 16).map (fun i => sessionAlphabet.getD (r i % 36) 'A'))

/-- The population of `random.choices` in `generate_otp`: `string.digits`. -/
def digitAlphabet : List Char := "0123456789".toList

/-- `generate_otp` (main.py lines 119-121): 6 draws from the digits. -/
def generate_otp (ro : Nat → Nat) : String :=
  String.mk ((List.range 6).map (fun i => digitAlphabet.getD (ro i % 10) '0'))

/-- Python `s[-4:]`: the last four characters (the whole string when it is
shorter, which `Nat` subtraction reproduces). -/
def lastFour (s : String) : String :=
  String.mk (s.toList.drop (s.length - 4))

/-- The document `otp_doc` built in `initiate_payment` (main.py lines
151-159).  `t1` is the `utcnow()` read of line 148 (so
`expires_at = t1 + 2 minutes`) and `t2` the read of line 156
(`created_at`). -/
def mkOtpDoc (card : CardDetails) (sid otp : String) (t1 t2 : Nat) : OtpDoc :=
  { session_id := sid
    otp := otp
    card_last_four := lastFour card.card_number
    holder_name := card.holder_name
    created_at := t2
    expires_at := t1 + OTP_EXPIRY_MINUTES * 60
    verified := false
    expired := false
    verified_at := none
    failed := false }

/-- `initiate_payment` (main.py lines 132-170): generate id and OTP, build
the document, `insert_one` (append), return the success response carrying
both.  There is no uniqueness check and no retry around the insert. -/
def initiate_payment (card : CardDetails) (r ro : Nat → Nat) (t1 t2 : Nat)
    (otp_collection : List OtpDoc) : InitiateResponse × List OtpDoc :=
  let sid := generate_session_id r
  let otp := generate_otp ro
  let doc := mkOtpDoc card sid otp t1 t2
  ({ success := true
     message := "OTP generated. Valid for " ++ toString OTP_EXPIRY_MINUTES ++ " minutes."
     session_id := sid
     otp := otp },
   otp_collection ++ [doc])

/-- `find_one({"session_id": sid, "verified": False})` (main.py lines
185-188): first document with the given id that is still unverified. -/
def findUnverifiedById (otp_collection : List OtpDoc) (sid : String) : Option OtpDoc :=
  otp_collection.find? (fun d => d.session_id == sid && d.verified == false)

/-- `update_one({"session_id": sid}, {"$set": ...})` (main.py lines
200-203, 213-216, 224-227): rewrite the FIRST document whose `session_id`
matches — note the filter does not mention `verified`. -/
def update_one (otp_collection : List OtpDoc) (sid : String) (f : OtpDoc → OtpDoc) :
    List OtpDoc :=
  match otp_collection with
  | [] => []
  | d :: rest =>
    if d.session_id == sid then f d :: rest else d :: update_one rest sid f

/-- The part of `verify_otp` after the `find_one` (main.py lines 190-232),
taking the find result `session` as a snapshot argument: the not-found
response, the expiry branch, the success branch and the wrong-code branch,
each performing its `$set` update against the CURRENT collection.
`now` is the `utcnow()` of line 198, `now2` that of line 215. -/
def vFinish (otp_collection : List OtpDoc) (sid code : String) (now now2 : Nat)
    (session : Option OtpDoc) : VerifyResponse × List OtpDoc :=
  match session with
  | none =>
    ({ success := false, status := "payment_failed"
       message := "Invalid or expired session" }, otp_collection)
  | some s =>
    if now > s.expires_at then
      ({ success := false, status := "payment_failed"
         message := "OTP has expired. Please initiate a new payment." },
       update_one otp_collection sid (fun d => { d with verified := true, expired := true }))
    else if s.otp == code then
      ({ success := true, status := "payment_success"
         message := "Payment verified successfully!" },
       update_one otp_collection sid
         (fun d => { d with verified := true, verified_at := some now2 }))
    else
      ({ success := false, status := "payment_failed"
         message := "Invalid OTP. Payment failed." },
       update_one otp_collection sid (fun d => { d with verified := true, failed := true }))

/-- `verify_otp` (main.py lines 173-232): `find_one` then the terminal
branches of `vFinish`. -/
def verify_otp (now now2 : Nat) (otp_collection : List OtpDoc) (sid code : String) :
    VerifyResponse × List OtpDoc :=
  vFinish otp_collection sid code now now2 (findUnverifiedById otp_collection sid)

/-- A document carries a terminal outcome marker: one of the `$set` fields
`expired`, `verified_at`, `failed` is present. -/
def terminalMarked (d : OtpDoc) : Bool :=
  d.expired || d.verified_at.isSome || d.failed

/-- One API operation against the store, with all its nondeterministic
inputs (clock reads, draw streams, request payload). -/
inductive Op where
  | initiate (card : CardDetails) (r ro : Nat → Nat) (t1 t2 : Nat)
  | verify (now now2 : Nat) (sid code : String)

/-- The store mutation an operation performs. -/
def applyOp (otp_collection : List OtpDoc) : Op → List OtpDoc
  | .initiate card r ro t1 t2 => (initiate_payment card r ro t1 t2 otp_collection).2
  | .verify now now2 sid code => (verify_otp now now2 otp_collection sid code).2

/-- The store reached from the empty collection by a sequence of
operations. -/
def runOps (ops : List Op) : List OtpDoc :=
  ops.foldl applyOp []

/-- Store invariant: every document carrying a terminal marker is
verified. -/
def StoreInv (otp_collection : List OtpDoc) : Prop :=
  ∀ d ∈ otp_collection, terminalMarked d = true → d.verified = true

/-- Progress of one in-flight `verify_otp` request: not yet started, past
its `find_one` (holding the snapshot), or finished with a response. -/
inductive Phase where
  | start : Phase
  | found : Option OtpDoc → Phase
  | done : VerifyResponse → Phase
deriving Repr, DecidableEq

/-- An in-flight `verify_otp` request: its payload, its clock reads, and
how far it has executed. -/
structure ReqState where
  sid : String
  code : String
  now : Nat
  now2 : Nat
  phase : Phase
deriving Repr, DecidableEq

/-- One atomic micro-step of an in-flight request: the `find_one`, or the
remainder (branch choice plus `update_one` plus response).  Each touches
the store once, matching the two store round-trips of `verify_otp`. -/
def stepReq (otp_collection : List OtpDoc) (q : ReqState) : List OtpDoc × ReqState :=
  match q.phase with
  | .start =>
    (otp_collection, { q with phase := .found (findUnverifiedById otp_collection q.sid) })
  | .found s =>
    let out := vFinish otp_collection q.sid q.code q.now q.now2 s
    (out.2, { q with phase := .done out.1 })
  | .done _ => (otp_collection, q)

/-- Run two concurrent `verify_otp` requests under a schedule: `true`
steps request `a`, `false` steps request `b`. -/
def runSched (otp_collection : List OtpDoc) (a b : ReqState) :
    List Bool → List OtpDoc × ReqState × ReqState
  | [] => (otp_collection, a, b)
  | true :: rest =>
    let out := stepReq otp_collection a
    runSched out.1 out.2 b rest
  | false :: rest =>
    let out := stepReq otp_collection b
    runSched out.1 a out.2 rest

/-- Whether a request has finished and reported success. -/
def phaseSuccess : Phase → Bool
  | .done r => r.success
  | _ => false

/-- The constant draw stream 0 (a concrete instance of the random
source). -/
def rZero : Nat → Nat := fun _ => 0

/-- A concrete valid card (the worked example of the spec). -/
def cardW : CardDetails :=
  { card_number := "4111111111111111", expiry := "12/30", cvv := "123"
    holder_name := "Jane Doe" }

/-- A second concrete valid card: same last four digits and holder as
`cardW`, different leading digits, expiry and CVV. -/
def card2 : CardDetails :=
  { card_number := "5105105105101111", expiry := "01/29", cvv := "9999"
    holder_name := "Jane Doe" }

/-- A concrete already-consumed session document. -/
def docC : OtpDoc :=
  { session_id := "S1", otp := "123456", card_last_four := "1111"
    holder_name := "Jane Doe", created_at := 0, expires_at := 120
    verified := true, expired := false, verified_at := some 5, failed := false }

/-- A concrete fresh (pending, unexpired) session document. -/
def docF : OtpDoc :=
  { session_id := "S1", otp := "123456", card_last_four := "1111"
    holder_name := "Jane Doe", created_at := 0, expires_at := 120
    verified := false, expired := false, verified_at := none, failed := false }

/-- A concrete pending document whose id is exactly the one the
constant-zero draw stream generates. -/
def docA : OtpDoc :=
  { session_id := "AAAAAAAAAAAAAAAA", otp := "111111", card_last_four := "2222"
    holder_name := "John Roe", created_at := 0, expires_at := 120
    verified := false, expired := false, verified_at := none, failed := false }

/-- A not-yet-started `verify_otp` request for `docF` with the correct
code. -/
def reqA : ReqState :=
  { sid := "S1", code := "123456", now := 5, now2 := 5, phase := .start }

/-- A second such request (a concurrent duplicate). -/
def reqB : ReqState :=
  { sid := "S1", code := "123456", now := 6, now2 := 6, phase := .start }

/-! ### Helper lemmas about the store operations -/

theorem findUnverifiedById_cons_ne (d : OtpDoc) (rest : List OtpDoc) (sid : String)
    (h : d.session_id ≠ sid) :
    findUnverifiedById (d :: rest) sid = findUnverifiedById rest sid := by
  unfold findUnverifiedById
  exact List.find?_cons_of_neg rest (by simp [h])

theorem findUnverifiedById_eq_none (store : List OtpDoc) (sid : String)
    (h : ∀ d ∈ store, d.session_id = sid → d.verified = true) :
    findUnverifiedById store sid = none := by
  unfold findUnverifiedById
  rw [List.find?_eq_none]
  intro d hd
  by_cases hs : d.session_id = sid
  · simp [hs, h d hd hs]
  · simp [hs]

theorem findUnverifiedById_append (store tail : List OtpDoc) (sid : String)
    (h : ∀ d ∈ store, d.session_id ≠ sid) :
    findUnverifiedById (store ++ tail) sid = findUnverifiedById tail sid := by
  induction store with
  | nil => rfl
  | cons d rest ih =>
    rw [List.cons_append, findUnverifiedById_cons_ne _ _ _ (h d (by simp))]
    exact ih (fun x hx => h x (by simp [hx]))

theorem findUnverifiedById_single (doc : OtpDoc) (hv : doc.verified = false) :
    findUnverifiedById [doc] doc.session_id = some doc := by
  unfold findUnverifiedById
  exact List.find?_cons_of_pos _ (by simp [hv])

theorem update_one_append (store tail : List OtpDoc) (sid : String) (f : OtpDoc → OtpDoc)
    (h : ∀ d ∈ store, d.session_id ≠ sid) :
    update_one (store ++ tail) sid f = store ++ update_one tail sid f := by
  induction store with
  | nil => rfl
  | cons d rest ih =>
    have hd : d.session_id ≠ sid := h d (by simp)
    rw [List.cons_append]
    simp only [update_one, show (d.session_id == sid) = false by simp [hd],
      Bool.false_eq_true, if_false]
    rw [ih (fun x hx => h x (by simp [hx])), List.cons_append]

theorem update_one_single (doc : OtpDoc) (f : OtpDoc → OtpDoc) :
    update_one [doc] doc.session_id f = [f doc] := by
  simp [update_one]

theorem mem_update_one (store : List OtpDoc) (sid : String) (f : OtpDoc → OtpDoc)
    (d' : OtpDoc) (h : d' ∈ update_one store sid f) :
    d' ∈ store ∨ ∃ d ∈ store, d' = f d := by
  induction store with
  | nil => simp [update_one] at h
  | cons d rest ih =>
    by_cases hd : d.session_id = sid
    · simp only [update_one, show (d.session_id == sid) = true by simp [hd],
        if_true, List.mem_cons] at h
      rcases h with h | h
      · exact Or.inr ⟨d, by simp, h⟩
      · exact Or.inl (by simp [h])
    · simp only [update_one, show (d.session_id == sid) = false by simp [hd],
        Bool.false_eq_true, if_false, List.mem_cons] at h
      rcases h with h | h
      · exact Or.inl (by simp [h])
      · rcases ih h with h1 | ⟨x, hx, hfx⟩
        · exact Or.inl (by simp [h1])
        · exact Or.inr ⟨x, by simp [hx], hfx⟩

theorem getElem?_update_one (store : List OtpDoc) (sid : String) (f : OtpDoc → OtpDoc)
    (i : Nat) :
    (update_one store sid f)[i]? = store[i]? ∨
    (update_one store sid f)[i]? = (store[i]?).map f := by
  induction store generalizing i with
  | nil => left; simp [update_one]
  | cons d rest ih =>
    by_cases hd : d.session_id = sid
    · cases i with
      | zero => right; simp [update_one, hd]
      | succ n => left; simp [update_one, hd]
    · cases i with
      | zero => left; simp [update_one, hd]
      | succ n =>
        rcases ih n with h | h
        · left; simp [update_one, hd, h]
        · right; simp [update_one, hd, h]

/-! ### Branch lemmas for `vFinish` -/

theorem vFinish_none (store : List OtpDoc) (sid code : String) (now now2 : Nat) :
    vFinish store sid code now now2 none =
      ({ success := false, status := "payment_failed"
         message := "Invalid or expired session" }, store) := rfl

theorem vFinish_expired (store : List OtpDoc) (sid code : String) (now now2 : Nat)
    (s : OtpDoc) (h : now > s.expires_at) :
    vFinish store sid code now now2 (some s) =
      ({ success := false, status := "payment_failed"
         message := "OTP has expired. Please initiate a new payment." },
       update_one store sid (fun d => { d with verified := true, expired := true })) := by
  simp only [vFinish]
  rw [if_pos h]

theorem vFinish_success (store : List OtpDoc) (sid code : String) (now now2 : Nat)
    (s : OtpDoc) (h : ¬ now > s.expires_at) (hc : s.otp = code) :
    vFinish store sid code now now2 (some s) =
      ({ success := true, status := "payment_success"
         message := "Payment verified successfully!" },
       update_one store sid
         (fun d => { d with verified := true, verified_at := some now2 })) := by
  simp only [vFinish]
  rw [if_neg h, if_pos (show (s.otp == code) = true by simp [hc])]

theorem vFinish_wrong (store : List OtpDoc) (sid code : String) (now now2 : Nat)
    (s : OtpDoc) (h : ¬ now > s.expires_at) (hc : s.otp ≠ code) :
    vFinish store sid code now now2 (some s) =
      ({ success := false, status := "payment_failed"
         message := "Invalid OTP. Payment failed." },
       update_one store sid (fun d => { d with verified := true, failed := true })) := by
  simp only [vFinish]
  rw [if_neg h, if_neg (show ¬ (s.otp == code) = true by simp [hc])]

/-! ### End-to-end lemmas for a freshly inserted session -/

theorem verify_fresh_success (store0 : List OtpDoc) (doc : OtpDoc) (sid code : String)
    (hsid : doc.session_id = sid) (hcode : doc.otp = code)
    (hfresh : ∀ d ∈ store0, d.session_id ≠ sid)
    (hv : doc.verified = false) (now now2 : Nat)
    (h : ¬ now > doc.expires_at) :
    verify_otp now now2 (store0 ++ [doc]) sid code =
      ({ success := true, status := "payment_success"
         message := "Payment verified successfully!" },
       store0 ++ [{ doc with verified := true, verified_at := some now2 }]) := by
  subst hsid
  subst hcode
  unfold verify_otp
  rw [findUnverifiedById_append store0 [doc] _ hfresh, findUnverifiedById_single doc hv,
    vFinish_success _ _ _ _ _ _ h rfl,
    update_one_append store0 [doc] _ _ hfresh, update_one_single]

theorem verify_fresh_expired (store0 : List OtpDoc) (doc : OtpDoc) (sid code : String)
    (hsid : doc.session_id = sid)
    (hfresh : ∀ d ∈ store0, d.session_id ≠ sid)
    (hv : doc.verified = false) (now now2 : Nat)
    (h : now > doc.expires_at) :
    verify_otp now now2 (store0 ++ [doc]) sid code =
      ({ success := false, status := "payment_failed"
         message := "OTP has expired. Please initiate a new payment." },
       store0 ++ [{ doc with verified := true, expired := true }]) := by
  subst hsid
  unfold verify_otp
  rw [findUnverifiedById_append store0 [doc] _ hfresh, findUnverifiedById_single doc hv,
    vFinish_expired _ _ _ _ _ _ h,
    update_one_append store0 [doc] _ _ hfresh, update_one_single]

theorem verify_fresh_wrong (store0 : List OtpDoc) (doc : OtpDoc) (sid code : String)
    (hsid : doc.session_id = sid)
    (hfresh : ∀ d ∈ store0, d.session_id ≠ sid)
    (hv : doc.verified = false) (now now2 : Nat)
    (h : ¬ now > doc.expires_at) (hc : doc.otp ≠ code) :
    verify_otp now now2 (store0 ++ [doc]) sid code =
      ({ success := false, status := "payment_failed"
         message := "Invalid OTP. Payment failed." },
       store0 ++ [{ doc with verified := true, failed := true }]) := by
  subst hsid
  unfold verify_otp
  rw [findUnverifiedById_append store0 [doc] _ hfresh, findUnverifiedById_single doc hv,
    vFinish_wrong _ _ _ _ _ _ h hc,
    update_one_append store0 [doc] _ _ hfresh, update_one_single]

theorem verify_consumed (store0 : List OtpDoc) (doc : OtpDoc) (sid : String)
    (hsid : doc.session_id = sid)
    (hfresh : ∀ d ∈ store0, d.session_id ≠ sid)
    (hv : doc.verified = true) (now now2 : Nat) (code : String) :
    verify_otp now now2 (store0 ++ [doc]) sid code =
      ({ success := false, status := "payment_failed"
         message := "Invalid or expired session" }, store0 ++ [doc]) := by
  subst hsid
  unfold verify_otp
  rw [findUnverifiedById_eq_none]
  · rfl
  · intro d hd hds
    rcases List.mem_append.mp hd with h1 | h1
    · exact absurd hds (hfresh d h1)
    · simp only [List.mem_singleton] at h1
      subst h1
      exact hv

/-! ### Claim C1 -/

/-- C1: for a session freshly created by `initiate_payment` (its id not
already in the store), a first `verify_otp` with the correct code inside
the validity window returns `success = true`, and a second `verify_otp`
with the same id and the same correct code returns the generic failure
response: the session is never counted as success twice. -/
theorem C1_verify_not_double_success
    (card : CardDetails) (r ro : Nat → Nat) (t1 t2 now1 now1b now2 now2b : Nat)
    (store0 : List OtpDoc)
    (hfresh : ∀ d ∈ store0, d.session_id ≠ generate_session_id r)
    (hnow : ¬ now1 > t1 + OTP_EXPIRY_MINUTES * 60) :
    (verify_otp now1 now1b (initiate_payment card r ro t1 t2 store0).2
        (generate_session_id r) (generate_otp ro)).1.success = true ∧
    (verify_otp now2 now2b
        (verify_otp now1 now1b (initiate_payment card r ro t1 t2 store0).2
            (generate_session_id r) (generate_otp ro)).2
        (generate_session_id r) (generate_otp ro)).1 =
      { success := false, status := "payment_failed"
        message := "Invalid or expired session" } := by
  have h1 := verify_fresh_success store0
    (mkOtpDoc card (generate_session_id r) (generate_otp ro) t1 t2)
    (generate_session_id r) (generate_otp ro) rfl rfl hfresh rfl now1 now1b hnow
  have hst : (initiate_payment card r ro t1 t2 store0).2 =
      store0 ++ [mkOtpDoc card (generate_session_id r) (generate_otp ro) t1 t2] := rfl
  constructor
  · rw [hst, h1]
  · rw [hst, h1]
    exact congrArg Prod.fst
      (verify_consumed store0
        { mkOtpDoc card (generate_session_id r) (generate_otp ro) t1 t2 with
          verified := true, verified_at := some now1b }
        (generate_session_id r) rfl hfresh rfl now2 now2b (generate_otp ro))

/-- C1 witness at a concrete card, draw streams and clock. -/
theorem C1_witness :
    (∀ d ∈ ([] : List OtpDoc), d.session_id ≠ generate_session_id rZero) ∧
    ¬ (5 > 0 + OTP_EXPIRY_MINUTES * 60) ∧
    ((verify_otp 5 7 (initiate_payment cardW rZero rZero 0 0 []).2
        (generate_session_id rZero) (generate_otp rZero)).1.success = true ∧
     (verify_otp 9 11
        (verify_otp 5 7 (initiate_payment cardW rZero rZero 0 0 []).2
            (generate_session_id rZero) (generate_otp rZero)).2
        (generate_session_id rZero) (generate_otp rZero)).1 =
      { success := false, status := "payment_failed"
        message := "Invalid or expired session" }) :=
  ⟨by simp, by decide,
   C1_verify_not_double_success cardW rZero rZero 0 0 5 7 9 11 [] (by simp) (by decide)⟩

/-! ### Claim C2 -/

/-- C2: a pending session whose `expires_at` has passed at verification
time yields the expired failure (`success = false`, message "OTP has
expired. Please initiate a new payment.") and is marked terminal with
`verified := true, expired := true` — never the success response — even
though the submitted code is exactly the stored one. -/
theorem C2_expired_even_with_correct_code
    (card : CardDetails) (r ro : Nat → Nat) (t1 t2 now now2 : Nat)
    (store0 : List OtpDoc)
    (hfresh : ∀ d ∈ store0, d.session_id ≠ generate_session_id r)
    (hexp : now > t1 + OTP_EXPIRY_MINUTES * 60) :
    verify_otp now now2 (initiate_payment card r ro t1 t2 store0).2
        (generate_session_id r) (generate_otp ro) =
      ({ success := false, status := "payment_failed"
         message := "OTP has expired. Please initiate a new payment." },
       store0 ++ [{ mkOtpDoc card (generate_session_id r) (generate_otp ro) t1 t2 with
                    verified := true, expired := true }]) := by
  have hst : (initiate_payment card r ro t1 t2 store0).2 =
      store0 ++ [mkOtpDoc card (generate_session_id r) (generate_otp ro) t1 t2] := rfl
  rw [hst]
  exact verify_fresh_expired store0
    (mkOtpDoc card (generate_session_id r) (generate_otp ro) t1 t2)
    (generate_session_id r) (generate_otp ro) rfl hfresh rfl now now2 hexp

/-- C2 witness: verification 121 seconds after a session created at 0. -/
theorem C2_witness :
    (∀ d ∈ ([] : List OtpDoc), d.session_id ≠ generate_session_id rZero) ∧
    (121 > 0 + OTP_EXPIRY_MINUTES * 60) ∧
    verify_otp 121 121 (initiate_payment cardW rZero rZero 0 0 []).2
        (generate_session_id rZero) (generate_otp rZero) =
      ({ success := false, status := "payment_failed"
         message := "OTP has expired. Please initiate a new payment." },
       [] ++ [{ mkOtpDoc cardW (generate_session_id rZero) (generate_otp rZero) 0 0 with
                verified := true, expired := true }]) :=
  ⟨by simp, by decide,
   C2_expired_even_with_correct_code cardW rZero rZero 0 0 121 121 [] (by simp) (by decide)⟩

/-! ### Claim C3 -/

/-- C3: on a pending unexpired session, a wrong code yields the
invalid-OTP failure and marks the session terminal
(`verified := true, failed := true`); afterwards EVERY further
`verify_otp` on the same id — with any code, including the correct one —
returns the generic failure and leaves the store unchanged. -/
theorem C3_wrong_code_consumes_session
    (card : CardDetails) (r ro : Nat → Nat) (t1 t2 now now2 : Nat) (code : String)
    (store0 : List OtpDoc)
    (hfresh : ∀ d ∈ store0, d.session_id ≠ generate_session_id r)
    (hnot : ¬ now > t1 + OTP_EXPIRY_MINUTES * 60)
    (hwrong : code ≠ generate_otp ro) :
    verify_otp now now2 (initiate_payment card r ro t1 t2 store0).2
        (generate_session_id r) code =
      ({ success := false, status := "payment_failed"
         message := "Invalid OTP. Payment failed." },
       store0 ++ [{ mkOtpDoc card (generate_session_id r) (generate_otp ro) t1 t2 with
                    verified := true, failed := true }]) ∧
    ∀ (na nb : Nat) (code2 : String),
      verify_otp na nb
          (store0 ++ [{ mkOtpDoc card (generate_session_id r) (generate_otp ro) t1 t2 with
                        verified := true, failed := true }])
          (generate_session_id r) code2 =
        ({ success := false, status := "payment_failed"
           message := "Invalid or expired session" },
         store0 ++ [{ mkOtpDoc card (generate_session_id r) (generate_otp ro) t1 t2 with
                      verified := true, failed := true }]) := by
  have hst : (initiate_payment card r ro t1 t2 store0).2 =
      store0 ++ [mkOtpDoc card (generate_session_id r) (generate_otp ro) t1 t2] := rfl
  constructor
  · rw [hst]
    exact verify_fresh_wrong store0
      (mkOtpDoc card (generate_session_id r) (generate_otp ro) t1 t2)
      (generate_session_id r) code rfl hfresh rfl now now2 hnot (Ne.symm hwrong)
  · intro na nb code2
    exact verify_consumed store0
      { mkOtpDoc card (generate_session_id r) (generate_otp ro) t1 t2 with
        verified := true, failed := true }
      (generate_session_id r) rfl hfresh rfl na nb code2

/-- C3 witness: wrong code "999999" against stored "000000", then a
retry with the correct code still fails. -/
theorem C3_witness :
    (∀ d ∈ ([] : List OtpDoc), d.session_id ≠ generate_session_id rZero) ∧
    ¬ (5 > 0 + OTP_EXPIRY_MINUTES * 60) ∧
    ("999999" : String) ≠ generate_otp rZero ∧
    ((verify_otp 5 5 (initiate_payment cardW rZero rZero 0 0 []).2
        (generate_session_id rZero) "999999").1.success = false ∧
     (verify_otp 9 9
        ([] ++ [{ mkOtpDoc cardW (generate_session_id rZero) (generate_otp rZero) 0 0 with
                  verified := true, failed := true }])
        (generate_session_id rZero) (generate_otp rZero)).1.success = false) := by
  refine ⟨by simp, by decide, by decide, ?_, ?_⟩
  · rw [(C3_wrong_code_consumes_session cardW rZero rZero 0 0 5 5 "999999" []
      (by simp) (by decide) (by decide)).1]
  · rw [(C3_wrong_code_consumes_session cardW rZero rZero 0 0 5 5 "999999" []
      (by simp) (by decide) (by decide)).2 9 9 (generate_otp rZero)]

/-! ### Claim C4 -/

/-- C4: for every `session_id` that is unknown to the store or whose
record is already verified, `verify_otp` returns the generic failure
response with message "Invalid or expired session" and leaves the store
unchanged; one equation covers both the never-existed and the
already-consumed case, so the response is identical in the two. -/
theorem C4_unknown_or_consumed_uniform_failure
    (now now2 : Nat) (store : List OtpDoc) (sid code : String)
    (h : ∀ d ∈ store, d.session_id = sid → d.verified = true) :
    verify_otp now now2 store sid code =
      ({ success := false, status := "payment_failed"
         message := "Invalid or expired session" }, store) := by
  unfold verify_otp
  rw [findUnverifiedById_eq_none store sid h]
  rfl

/-- C4 witness: an already-consumed record (and an unknown id, since the
store holds no other ids): the call returns the generic failure and the
store is unchanged. -/
theorem C4_witness :
    (∀ d ∈ [{ session_id := "S1", otp := "123456", card_last_four := "1111"
              holder_name := "Jane Doe", created_at := 0, expires_at := 120
              verified := true, expired := false, verified_at := some 5
              failed := false : OtpDoc }],
        d.session_id = "S1" → d.verified = true) ∧
    verify_otp 10 10
        [{ session_id := "S1", otp := "123456", card_last_four := "1111"
           holder_name := "Jane Doe", created_at := 0, expires_at := 120
           verified := true, expired := false, verified_at := some 5
           failed := false : OtpDoc }] "S1" "123456" =
      ({ success := false, status := "payment_failed"
         message := "Invalid or expired session" },
       [{ session_id := "S1", otp := "123456", card_last_four := "1111"
          holder_name := "Jane Doe", created_at := 0, expires_at := 120
          verified := true, expired := false, verified_at := some 5
          failed := false : OtpDoc }]) :=
  ⟨by decide, C4_unknown_or_consumed_uniform_failure 10 10 _ "S1" "123456" (by decide)⟩

/-! ### Claim C5 -/

theorem verify_otp_store_cases (now now2 : Nat) (store : List OtpDoc) (sid code : String) :
    (verify_otp now now2 store sid code).2 = store ∨
    ∃ f : OtpDoc → OtpDoc, (∀ x, (f x).verified = true) ∧
      (verify_otp now now2 store sid code).2 = update_one store sid f := by
  unfold verify_otp
  cases hfind : findUnverifiedById store sid with
  | none => left; rfl
  | some s =>
    by_cases he : now > s.expires_at
    · right
      refine ⟨fun d => { d with verified := true, expired := true }, fun x => rfl, ?_⟩
      rw [vFinish_expired _ _ _ _ _ _ he]
    · by_cases hc : s.otp = code
      · right
        refine ⟨fun d => { d with verified := true, verified_at := some now2 },
          fun x => rfl, ?_⟩
        rw [vFinish_success _ _ _ _ _ _ he hc]
      · right
        refine ⟨fun d => { d with verified := true, failed := true }, fun x => rfl, ?_⟩
        rw [vFinish_wrong _ _ _ _ _ _ he hc]

theorem storeInv_applyOp (store : List OtpDoc) (op : Op) (h : StoreInv store) :
    StoreInv (applyOp store op) := by
  cases op with
  | initiate card r ro t1 t2 =>
    intro d hd hm
    have happ : applyOp store (Op.initiate card r ro t1 t2) =
        store ++ [mkOtpDoc card (generate_session_id r) (generate_otp ro) t1 t2] := rfl
    rw [happ] at hd
    rcases List.mem_append.mp hd with h1 | h1
    · exact h d h1 hm
    · simp only [List.mem_singleton] at h1
      subst h1
      simp [mkOtpDoc, terminalMarked] at hm
  | verify now now2 sid code =>
    intro d hd hm
    have happ : applyOp store (Op.verify now now2 sid code) =
        (verify_otp now now2 store sid code).2 := rfl
    rw [happ] at hd
    rcases verify_otp_store_cases now now2 store sid code with heq | ⟨f, hf, heq⟩
    · rw [heq] at hd
      exact h d hd hm
    · rw [heq] at hd
      rcases mem_update_one store sid f d hd with h1 | ⟨x, _, rfl⟩
      · exact h d h1 hm
      · exact hf x

theorem storeInv_foldl (ops : List Op) :
    ∀ store : List OtpDoc, StoreInv store → StoreInv (ops.foldl applyOp store) := by
  induction ops with
  | nil => intro store h; exact h
  | cons op rest ih => intro store h; exact ih _ (storeInv_applyOp store op h)

theorem verified_mono_applyOp (store : List OtpDoc) (op : Op) (i : Nat) (d : OtpDoc)
    (hget : store[i]? = some d) (hv : d.verified = true) :
    ∃ d' : OtpDoc, (applyOp store op)[i]? = some d' ∧ d'.verified = true := by
  cases op with
  | initiate card r ro t1 t2 =>
    refine ⟨d, ?_, hv⟩
    have hlt : i < store.length := (List.getElem?_eq_some_iff.mp hget).1
    have happ : applyOp store (Op.initiate card r ro t1 t2) =
        store ++ [mkOtpDoc card (generate_session_id r) (generate_otp ro) t1 t2] := rfl
    rw [happ, List.getElem?_append_left hlt]
    exact hget
  | verify now now2 sid code =>
    have happ : applyOp store (Op.verify now now2 sid code) =
        (verify_otp now now2 store sid code).2 := rfl
    rcases verify_otp_store_cases now now2 store sid code with heq | ⟨f, hf, heq⟩
    · refine ⟨d, ?_, hv⟩
      rw [happ, heq]
      exact hget
    · rcases getElem?_update_one store sid f i with h1 | h1
      · refine ⟨d, ?_, hv⟩
        rw [happ, heq, h1]
        exact hget
      · refine ⟨f d, ?_, hf d⟩
        rw [happ, heq, h1, hget]
        rfl

/-- C5: state-machine invariant.  (a) `initiate_payment` only ever
persists documents with `verified = false` and no terminal marker;
(b) in every store reachable by any sequence of operations from the empty
collection, a document carrying a terminal marker (`expired`,
`verified_at` or `failed`) has `verified = true`; (c) along any single
operation, a document whose `verified` is `true` keeps `verified = true`
at its position — `verified` never returns to `false`, so it flips
false→true at most once per record. -/
theorem C5_session_state_machine :
    (∀ (card : CardDetails) (sid otp : String) (t1 t2 : Nat),
        (mkOtpDoc card sid otp t1 t2).verified = false ∧
        terminalMarked (mkOtpDoc card sid otp t1 t2) = false) ∧
    (∀ ops : List Op, StoreInv (runOps ops)) ∧
    (∀ (store : List OtpDoc) (op : Op) (i : Nat) (d : OtpDoc),
        store[i]? = some d → d.verified = true →
        ∃ d' : OtpDoc, (applyOp store op)[i]? = some d' ∧ d'.verified = true) := by
  refine ⟨fun card sid otp t1 t2 => ⟨rfl, rfl⟩, ?_, verified_mono_applyOp⟩
  intro ops
  exact storeInv_foldl ops [] (by intro d hd; simp at hd)

/-- C5 witness: the monotonicity part applied to a consumed document and
a further verification attempt. -/
theorem C5_witness :
    ∃ d' : OtpDoc,
      (applyOp [docC] (Op.verify 9 9 "S1" "123456"))[0]? = some d' ∧
      d'.verified = true :=
  C5_session_state_machine.2.2 [docC] (Op.verify 9 9 "S1" "123456") 0 docC
    (by decide) (by decide)

/-! ### Claim C6 -/

/-- C6 counterexample: the claim "of two concurrent Verify calls on the
same fresh session with the correct code exactly one observes
success=true — never both" is false.  The `update_one` filter is
`{session_id}` alone (no `verified: False` compare-and-set), so under the
interleaving find(A), find(B), finish(A), finish(B) — both `find_one`
calls run before either update — both requests report
`success = true`. -/
theorem C6_counterexample :
    phaseSuccess (runSched [docF] reqA reqB [true, false, true, false]).2.1.phase = true ∧
    phaseSuccess (runSched [docF] reqA reqB [true, false, true, false]).2.2.phase = true := by
  decide

/-- C6 amended: the update `verify_otp` performs is conditioned on
`session_id` only — it rewrites the head document of a matching id
whatever its `verified` value, with no compare-and-set — and only
SERIALIZED duplicate Verify calls (second starting after the first
completed) yield exactly one success; interleaved ones may both
succeed. -/
theorem C6_amended_update_unconditional_serialized_single_success
    (card : CardDetails) (r ro : Nat → Nat) (t1 t2 now1 now1b now2 now2b : Nat)
    (store0 : List OtpDoc)
    (hfresh : ∀ d ∈ store0, d.session_id ≠ generate_session_id r)
    (hnow : ¬ now1 > t1 + OTP_EXPIRY_MINUTES * 60) :
    (∀ (d : OtpDoc) (rest : List OtpDoc) (f : OtpDoc → OtpDoc),
        update_one (d :: rest) d.session_id f = f d :: rest) ∧
    (verify_otp now1 now1b (initiate_payment card r ro t1 t2 store0).2
        (generate_session_id r) (generate_otp ro)).1.success = true ∧
    (verify_otp now2 now2b
        (verify_otp now1 now1b (initiate_payment card r ro t1 t2 store0).2
            (generate_session_id r) (generate_otp ro)).2
        (generate_session_id r) (generate_otp ro)).1.success = false := by
  have h1 := verify_fresh_success store0
    (mkOtpDoc card (generate_session_id r) (generate_otp ro) t1 t2)
    (generate_session_id r) (generate_otp ro) rfl rfl hfresh rfl now1 now1b hnow
  have hst : (initiate_payment card r ro t1 t2 store0).2 =
      store0 ++ [mkOtpDoc card (generate_session_id r) (generate_otp ro) t1 t2] := rfl
  refine ⟨fun d rest f => by simp [update_one], ?_, ?_⟩
  · rw [hst, h1]
  · rw [hst, h1]
    rw [verify_consumed store0
      { mkOtpDoc card (generate_session_id r) (generate_otp ro) t1 t2 with
        verified := true, verified_at := some now1b }
      (generate_session_id r) rfl hfresh rfl now2 now2b (generate_otp ro)]

/-- C6 witness: the amended statement at concrete inputs. -/
theorem C6_witness :
    update_one [docC] docC.session_id (fun d => { d with failed := true }) =
      [{ docC with failed := true }] ∧
    (verify_otp 5 7 (initiate_payment cardW rZero rZero 0 0 []).2
        (generate_session_id rZero) (generate_otp rZero)).1.success = true := by
  constructor
  · exact (C6_amended_update_unconditional_serialized_single_success cardW rZero rZero
      0 0 5 7 9 11 [] (by simp) (by decide)).1 docC [] (fun d => { d with failed := true })
  · exact (C6_amended_update_unconditional_serialized_single_success cardW rZero rZero
      0 0 5 7 9 11 [] (by simp) (by decide)).2.1

/-! ### Claim C7 -/

/-- C7 counterexample: the claim "on a session_id collision Initiate
regenerates a fresh id and retries, failing Internal only after bounded
retries" is false.  With a stored document already holding the id the
draw stream produces, `initiate_payment` returns `success = true` with
that SAME id (no regeneration, no Internal error) and the collection ends
with two documents under one id (the insert is unconditional). -/
theorem C7_counterexample :
    (initiate_payment cardW rZero rZero 0 0 [docA]).1.success = true ∧
    (initiate_payment cardW rZero rZero 0 0 [docA]).1.session_id = docA.session_id ∧
    List.countP (fun d => d.session_id == "AAAAAAAAAAAAAAAA")
      (initiate_payment cardW rZero rZero 0 0 [docA]).2 = 2 := by
  decide

/-- C7 amended: `initiate_payment` performs exactly one unconditional
insert of the generated id and always returns the success response; no
duplicate-key detection, no retry and no Internal failure exist — a
colliding id simply yields one more document under that id. -/
theorem C7_amended_single_unconditional_insert
    (card : CardDetails) (r ro : Nat → Nat) (t1 t2 : Nat) (store : List OtpDoc) :
    initiate_payment card r ro t1 t2 store =
      ({ success := true
         message := "OTP generated. Valid for " ++ toString OTP_EXPIRY_MINUTES ++ " minutes."
         session_id := generate_session_id r
         otp := generate_otp ro },
       store ++ [mkOtpDoc card (generate_session_id r) (generate_otp ro) t1 t2]) ∧
    List.countP (fun d => d.session_id == generate_session_id r)
        (initiate_payment card r ro t1 t2 store).2 =
      List.countP (fun d => d.session_id == generate_session_id r) store + 1 := by
  refine ⟨rfl, ?_⟩
  have hst : (initiate_payment card r ro t1 t2 store).2 =
      store ++ [mkOtpDoc card (generate_session_id r) (generate_otp ro) t1 t2] := rfl
  rw [hst, List.countP_append]
  simp [mkOtpDoc]

/-! ### Claim C8 -/

/-- C8 counterexample: the claim "expires_at equals created_at plus
exactly the 2-minute TTL, as an exact equation over the two stored
timestamps" is false.  `expiry_time` comes from the `utcnow()` read of
line 148 and `created_at` from the later read of line 156; when those
reads are 0 and 1, the persisted record has `expires_at = 120` but
`created_at + TTL = 121`. -/
theorem C8_counterexample :
    (initiate_payment cardW rZero rZero 0 1 []).2 =
      [mkOtpDoc cardW (generate_session_id rZero) (generate_otp rZero) 0 1] ∧
    (mkOtpDoc cardW (generate_session_id rZero) (generate_otp rZero) 0 1).expires_at = 120 ∧
    (mkOtpDoc cardW (generate_session_id rZero) (generate_otp rZero) 0 1).created_at = 1 ∧
    ¬ (mkOtpDoc cardW (generate_session_id rZero) (generate_otp rZero) 0 1).expires_at =
        (mkOtpDoc cardW (generate_session_id rZero) (generate_otp rZero) 0 1).created_at +
          OTP_EXPIRY_MINUTES * 60 := by
  decide

/-- C8 amended: for the record `initiate_payment` persists,
`expires_at = t1 + 2 minutes` where `t1` is the FIRST clock read; since
`created_at` is the second, later read `t2`, the stored record satisfies
`expires_at ≤ created_at + 2 minutes`, with equality exactly when the two
reads coincide. -/
theorem C8_amended_expiry_from_first_clock_read
    (card : CardDetails) (r ro : Nat → Nat) (t1 t2 : Nat) (store : List OtpDoc)
    (h : t1 ≤ t2) :
    (initiate_payment card r ro t1 t2 store).2 =
      store ++ [mkOtpDoc card (generate_session_id r) (generate_otp ro) t1 t2] ∧
    (mkOtpDoc card (generate_session_id r) (generate_otp ro) t1 t2).expires_at =
      t1 + OTP_EXPIRY_MINUTES * 60 ∧
    (mkOtpDoc card (generate_session_id r) (generate_otp ro) t1 t2).expires_at ≤
      (mkOtpDoc card (generate_session_id r) (generate_otp ro) t1 t2).created_at +
        OTP_EXPIRY_MINUTES * 60 ∧
    (t1 = t2 →
      (mkOtpDoc card (generate_session_id r) (generate_otp ro) t1 t2).expires_at =
        (mkOtpDoc card (generate_session_id r) (generate_otp ro) t1 t2).created_at +
          OTP_EXPIRY_MINUTES * 60) := by
  refine ⟨rfl, rfl, ?_, ?_⟩
  · show t1 + OTP_EXPIRY_MINUTES * 60 ≤ t2 + OTP_EXPIRY_MINUTES * 60
    omega
  · intro he
    subst he
    rfl

/-- C8 amended witness at coinciding clock reads. -/
theorem C8_witness :
    (0 : Nat) ≤ 0 ∧
    ((initiate_payment cardW rZero rZero 0 0 []).2 =
      [] ++ [mkOtpDoc cardW (generate_session_id rZero) (generate_otp rZero) 0 0] ∧
    (mkOtpDoc cardW (generate_session_id rZero) (generate_otp rZero) 0 0).expires_at =
      0 + OTP_EXPIRY_MINUTES * 60 ∧
    (mkOtpDoc cardW (generate_session_id rZero) (generate_otp rZero) 0 0).expires_at ≤
      (mkOtpDoc cardW (generate_session_id rZero) (generate_otp rZero) 0 0).created_at +
        OTP_EXPIRY_MINUTES * 60 ∧
    ((0 : Nat) = 0 →
      (mkOtpDoc cardW (generate_session_id rZero) (generate_otp rZero) 0 0).expires_at =
        (mkOtpDoc cardW (generate_session_id rZero) (generate_otp rZero) 0 0).created_at +
          OTP_EXPIRY_MINUTES * 60)) :=
  ⟨by decide, C8_amended_expiry_from_first_clock_read cardW rZero rZero 0 0 [] (by decide)⟩

/-! ### Claim C9 -/

/-- C9 counterexample: the claim that the returned `session_id` "has not
been issued before (no collision with any previously stored session_id)"
is false: nothing enforces uniqueness, so a draw stream reproducing an
already-stored id makes `initiate_payment` return exactly that id
again. -/
theorem C9_counterexample :
    docA ∈ [docA] ∧
    (initiate_payment cardW rZero rZero 0 0 [docA]).1.session_id = docA.session_id := by
  decide

/-- C9 amended: `initiate_payment` always returns a `session_id` of
exactly 16 characters over uppercase letters and digits and an
`otp_code` of exactly 6 decimal digits; uniqueness of the id against
previously stored ones is only probabilistic (36^16 entropy), not
guaranteed. -/
theorem C9_amended_session_id_and_otp_format
    (card : CardDetails) (r ro : Nat → Nat) (t1 t2 : Nat) (store : List OtpDoc) :
    (initiate_payment card r ro t1 t2 store).1.session_id.length = 16 ∧
    (∀ c ∈ (initiate_payment card r ro t1 t2 store).1.session_id.toList,
        ('A' ≤ c ∧ c ≤ 'Z') ∨ ('0' ≤ c ∧ c ≤ '9')) ∧
    (initiate_payment card r ro t1 t2 store).1.otp.length = 6 ∧
    (∀ c ∈ (initiate_payment card r ro t1 t2 store).1.otp.toList,
        '0' ≤ c ∧ c ≤ '9') := by
  have hsid : (initiate_payment card r ro t1 t2 store).1.session_id =
      generate_session_id r := rfl
  have hotp : (initiate_payment card r ro t1 t2 store).1.otp = generate_otp ro := rfl
  have halpha : ∀ k : Nat, k < 36 →
      (('A' ≤ sessionAlphabet.getD k 'A' ∧ sessionAlphabet.getD k 'A' ≤ 'Z') ∨
       ('0' ≤ sessionAlphabet.getD k 'A' ∧ sessionAlphabet.getD k 'A' ≤ '9')) := by
    decide
  have hdigit : ∀ k : Nat, k < 10 →
      ('0' ≤ digitAlphabet.getD k '0' ∧ digitAlphabet.getD k '0' ≤ '9') := by
    decide
  refine ⟨?_, ?_, ?_, ?_⟩
  · rw [hsid]
    simp [generate_session_id]
  · rw [hsid]
    intro c hc
    simp only [generate_session_id, String.toList, List.mem_map, List.mem_range] at hc
    obtain ⟨i, _, rfl⟩ := hc
    exact halpha (r i % 36) (Nat.mod_lt (r i) (by decide))
  · rw [hotp]
    simp [generate_otp]
  · rw [hotp]
    intro c hc
    simp only [generate_otp, String.toList, List.mem_map, List.mem_range] at hc
    obtain ⟨i, _, rfl⟩ := hc
    exact hdigit (ro i % 10) (Nat.mod_lt (ro i) (by decide))

/-- C9 amended witness: lengths at a concrete run, and the character
facts specialized to members of the returned strings. -/
theorem C9_witness :
    (initiate_payment cardW rZero rZero 0 0 []).1.session_id.length = 16 ∧
    (('A' ≤ 'A' ∧ 'A' ≤ 'Z') ∨ ('0' ≤ 'A' ∧ 'A' ≤ '9')) ∧
    (initiate_payment cardW rZero rZero 0 0 []).1.otp.length = 6 ∧
    ('0' ≤ '0' ∧ '0' ≤ '9') := by
  obtain ⟨h1, h2, h3, h4⟩ := C9_amended_session_id_and_otp_format cardW rZero rZero 0 0 []
  exact ⟨h1, h2 'A' (by decide), h3, h4 '0' (by decide)⟩

/-! ### Claim C10 -/

/-- C10: the record (and response) `initiate_payment` produces depends on
the card only through the last four characters of `card_number` and
through `holder_name`: full leading card digits, CVV and card expiry are
never stored, so two calls differing only in those fields (same last
four, same holder, same draws and clock reads) are indistinguishable. -/
theorem C10_record_independent_of_secret_card_fields
    (c1 c2 : CardDetails) (r ro : Nat → Nat) (t1 t2 : Nat) (store : List OtpDoc)
    (h4 : lastFour c1.card_number = lastFour c2.card_number)
    (hname : c1.holder_name = c2.holder_name) :
    initiate_payment c1 r ro t1 t2 store = initiate_payment c2 r ro t1 t2 store := by
  unfold initiate_payment
  simp only [mkOtpDoc, h4, hname]

/-- C10 witness: two cards differing in leading digits, expiry and CVV
but agreeing on the last four digits and holder produce identical
results. -/
theorem C10_witness :
    lastFour cardW.card_number = lastFour card2.card_number ∧
    cardW.holder_name = card2.holder_name ∧
    initiate_payment cardW rZero rZero 0 0 [] = initiate_payment card2 rZero rZero 0 0 [] :=
  ⟨by decide, by decide,
   C10_record_independent_of_secret_card_fields cardW card2 rZero rZero 0 0 []
     (by decide) (by decide)⟩

end Payment
